import Mathlib

/-!
Verification of the network-registry crate (`src/lib.rs`, `src/networks.rs`).

The closed generation (`lib.rs`) is the `Networks` enum with one exhaustive
forward accessor per property and inverse lookups derived from a single
generic first-match search over `ALL_NETWORKS`.  The open generation
(`networks.rs`) is a family of zero-sized marker types (`Bitcoin`,
`BitcoinTestnet`, `BitcoinRegtest`) implementing the `NetworkConstants`
capability surface and erased behind a box; the box is modelled here as a
record of the values every accessor returns.

Modelling conventions: Rust `Result<T, Error>` becomes `Except Error T`;
the `unimplemented!()` panic in `Networks::chain_params` becomes `none`
of an `Option`; machine integers (`u8`, `u32`, `u64`) become `Nat`
(every constant in the crate is a literal well inside its width, and no
arithmetic is performed on them); `[u64; 4]` becomes `List Nat`;
`&'static str` becomes `String`.
-/

namespace Constants

/-- Errors that can happen in the from functions (src/lib.rs 100-105):
the single variant `UnknownNetwork`. -/
inductive Error where
  | UnknownNetwork
deriving DecidableEq, Repr

/-- Describes the nature of the network (src/lib.rs 107-118). -/
inductive NetworkType where
  | Mainnet
  | Testnet
  | Regtest
deriving DecidableEq, Repr

/-- Parameters that influence chain consensus, closed generation
(src/lib.rs 120-160); generic over the network type `N` and carrying the
network the parameters are valid for. -/
structure ChainParams (N : Type) where
  network : N
  bip16_time : Nat
  bip34_height : Nat
  bip65_height : Nat
  bip66_height : Nat
  rule_change_activation_threshold : Nat
  miner_confirmation_window : Nat
  pow_limit : List Nat
  pow_target_spacing : Nat
  pow_target_timespan : Nat
  allow_min_difficulty_blocks : Bool
  no_pow_retargeting : Bool

/-- The cryptocurrency to act on (src/lib.rs 162-181): the closed
enumeration of networks. -/
inductive Networks where
  | Bitcoin
  | Testnet
  | Regtest
  | Litecoin
  | LitecoinTestnet
  | Vertcoin
  | VertcoinTestnet
deriving DecidableEq, Repr, Fintype

/-- List of all networks included in this crate (src/lib.rs 190-198),
in its declared order. -/
def ALL_NETWORKS : List Networks :=
  [ Networks.Bitcoin
  , Networks.Testnet
  , Networks.Regtest
  , Networks.Litecoin
  , Networks.LitecoinTestnet
  , Networks.Vertcoin
  , Networks.VertcoinTestnet ]

/-- Generic derivation of inverse lookups (src/lib.rs 201-209): the first
element of `ALL_NETWORKS` satisfying the predicate, or `UnknownNetwork`. -/
def Networks.find_net_with_property (predicate : Networks → Bool) :
    Except Error Networks :=
  match ALL_NETWORKS.find? predicate with
  | some network => Except.ok network
  | none => Except.error Error.UnknownNetwork

/-- Forward accessor for the human-readable part (src/lib.rs 212-222). -/
def Networks.hrp : Networks → String
  | Networks.Bitcoin => "bc"
  | Networks.Testnet => "tb"
  | Networks.Regtest => "bcrt"
  | Networks.Litecoin => "ltc"
  | Networks.LitecoinTestnet => "tltc"
  | Networks.Vertcoin => "vtc"
  | Networks.VertcoinTestnet => "tvtc"

/-- Inverse lookup by hrp (src/lib.rs 224-226). -/
def Networks.from_hrp (hrp : String) : Except Error Networks :=
  Networks.find_net_with_property (fun n => n.hrp == hrp)

/-- Forward accessor for the network's magic bytes (src/lib.rs 228-243). -/
def Networks.magic : Networks → Nat
  | Networks.Bitcoin => 0xD9B4BEF9
  | Networks.Testnet => 0x0709110B
  | Networks.Regtest => 0xDAB5BFFA
  | Networks.Litecoin => 0xDBB6C0FB
  | Networks.LitecoinTestnet => 0xF1C8D2FD
  | Networks.Vertcoin => 0xDAB5BFFA
  | Networks.VertcoinTestnet => 0x74726576

/-- Inverse lookup by magic bytes (src/lib.rs 246-248). -/
def Networks.from_magic (magic : Nat) : Except Error Networks :=
  Networks.find_net_with_property (fun n => n.magic == magic)

/-- Forward accessor for the canonical name (src/lib.rs 250-260). -/
def Networks.name : Networks → String
  | Networks.Bitcoin => "bitcoin"
  | Networks.Testnet => "testnet"
  | Networks.Regtest => "regtest"
  | Networks.Litecoin => "litecoin"
  | Networks.LitecoinTestnet => "litecoin-testnet"
  | Networks.Vertcoin => "vertcoin"
  | Networks.VertcoinTestnet => "vertcoin-testnet"

/-- Inverse lookup by name (src/lib.rs 262-264). -/
def Networks.from_name (name : String) : Except Error Networks :=
  Networks.find_net_with_property (fun n => n.name == name)

/-- Forward accessor for the network class (src/lib.rs 266-276). -/
def Networks.network_type : Networks → NetworkType
  | Networks.Bitcoin => NetworkType.Mainnet
  | Networks.Testnet => NetworkType.Testnet
  | Networks.Regtest => NetworkType.Regtest
  | Networks.Litecoin => NetworkType.Mainnet
  | Networks.LitecoinTestnet => NetworkType.Testnet
  | Networks.Vertcoin => NetworkType.Mainnet
  | Networks.VertcoinTestnet => NetworkType.Testnet

/-- Consensus parameters, closed generation (src/lib.rs 278-339).  The
`unimplemented!()` panic reached for the Litecoin and Vertcoin variants
is modelled as `none`. -/
def Networks.chain_params : Networks → Option (ChainParams Networks)
  | Networks.Bitcoin => some
      { network := Networks.Bitcoin
      , bip16_time := 1333238400
      , bip34_height := 227931
      , bip65_height := 388381
      , bip66_height := 363725
      , rule_change_activation_threshold := 1916
      , miner_confirmation_window := 2016
      , pow_limit :=
          [ 0xffffffffffffffff, 0xffffffffffffffff
          , 0xffffffffffffffff, 0x00000000ffffffff ]
      , pow_target_spacing := 10 * 60
      , pow_target_timespan := 14 * 24 * 60 * 60
      , allow_min_difficulty_blocks := false
      , no_pow_retargeting := false }
  | Networks.Testnet => some
      { network := Networks.Testnet
      , bip16_time := 1333238400
      , bip34_height := 21111
      , bip65_height := 581885
      , bip66_height := 330776
      , rule_change_activation_threshold := 1512
      , miner_confirmation_window := 2016
      , pow_limit :=
          [ 0xffffffffffffffff, 0xffffffffffffffff
          , 0xffffffffffffffff, 0x00000000ffffffff ]
      , pow_target_spacing := 10 * 60
      , pow_target_timespan := 14 * 24 * 60 * 60
      , allow_min_difficulty_blocks := true
      , no_pow_retargeting := false }
  | Networks.Regtest => some
      { network := Networks.Regtest
      , bip16_time := 1333238400
      , bip34_height := 100000000
      , bip65_height := 1351
      , bip66_height := 1251
      , rule_change_activation_threshold := 108
      , miner_confirmation_window := 144
      , pow_limit :=
          [ 0xffffffffffffffff, 0xffffffffffffffff
          , 0xffffffffffffffff, 0x7fffffffffffffff ]
      , pow_target_spacing := 10 * 60
      , pow_target_timespan := 14 * 24 * 60 * 60
      , allow_min_difficulty_blocks := true
      , no_pow_retargeting := true }
  | _ => none

/-- Models the serde `Serialize` impl for `Networks` (src/lib.rs 378-385):
the emitted text form is exactly `self.name()`. -/
def Networks.serialize (n : Networks) : String := Networks.name n

/-- Value of one hex digit.  Models the digit step of the external
`bitcoin_hashes::hex::FromHex` decoding consumed by `genesis_block`
(the spec treats the digest as an opaque fixed-width value obtained by
hex-decoding a literal). -/
def hexDigitVal (c : Char) : Option Nat :=
  if '0' ≤ c ∧ c ≤ '9' then some (c.toNat - 48)
  else if 'a' ≤ c ∧ c ≤ 'f' then some (c.toNat - 97 + 10)
  else if 'A' ≤ c ∧ c ≤ 'F' then some (c.toNat - 65 + 10)
  else none

/-- Decode a list of hex digits, two per byte. -/
def hexPairsDecode : List Char → Option (List Nat)
  | [] => some []
  | [_] => none
  | hi :: lo :: rest =>
    match hexDigitVal hi, hexDigitVal lo, hexPairsDecode rest with
    | some h, some l, some bs => some ((16 * h + l) :: bs)
    | _, _, _ => none

/-- Hex-decode a string into bytes; `none` models a malformed literal. -/
def hexDecode (s : String) : Option (List Nat) :=
  hexPairsDecode s.data

/-- Models the serde `Deserialize` impl for `Networks` (src/lib.rs 348-376):
`visit_str` is `Networks::from_name`, with the `UnknownNetwork` outcome
mapped to a serde syntax error tagged with the string `Network`. -/
def Networks.deserialize (s : String) : Except String Networks :=
  match Networks.from_name s with
  | Except.ok network => Except.ok network
  | Except.error Error.UnknownNetwork => Except.error "Network"

namespace networks

/-- Consensus parameters as used by the open generation
(src/networks.rs struct literals, e.g. 91-110): same fields as the
closed generation's bundle but with no `network` field. -/
structure ChainParams where
  bip16_time : Nat
  bip34_height : Nat
  bip65_height : Nat
  bip66_height : Nat
  rule_change_activation_threshold : Nat
  miner_confirmation_window : Nat
  pow_limit : List Nat
  pow_target_spacing : Nat
  pow_target_timespan : Nat
  allow_min_difficulty_blocks : Bool
  no_pow_retargeting : Bool
deriving DecidableEq, Repr

/-- A `Box<NetworkConstants>` trait object: since every implementor is a
stateless marker whose accessors return literal constants, the erased box
is modelled as the record of the values each accessor of the
`NetworkConstants` capability surface returns. -/
structure NetworkConstants where
  hrp : String
  p2pk_prefix : Nat
  p2pkh_prefix : Nat
  p2sh_prefix : Nat
  xpub_prefix : List Nat
  xpriv_prefix : List Nat
  wif_prefix : Nat
  magic : Nat
  name : String
  network_type : NetworkType
  chain_params : ChainParams
  genesis_block : Option (List Nat)
deriving DecidableEq

/-- Represents the Bitcoin Mainnet (src/networks.rs 15-17): zero-sized
marker. -/
structure Bitcoin

/-- Represents the Bitcoin Testnet (src/networks.rs 19-21). -/
structure BitcoinTestnet

/-- Represents the Bitcoin Regtest network (src/networks.rs 23-25). -/
structure BitcoinRegtest

/-- Accessors of `impl NetworkConstants for Bitcoin`
(src/networks.rs 48-121). -/
def Bitcoin.hrp (_ : Bitcoin) : String := "bc"

def Bitcoin.p2pk_prefix (_ : Bitcoin) : Nat := 0

def Bitcoin.p2pkh_prefix (_ : Bitcoin) : Nat := 0

def Bitcoin.p2sh_prefix (_ : Bitcoin) : Nat := 5

def Bitcoin.xpub_prefix (_ : Bitcoin) : List Nat := [0x04, 0x88, 0xB2, 0x1E]

def Bitcoin.xpriv_prefix (_ : Bitcoin) : List Nat := [0x04, 0x88, 0xAD, 0xE4]

def Bitcoin.wif_prefix (_ : Bitcoin) : Nat := 128

def Bitcoin.magic (_ : Bitcoin) : Nat := 0xD9B4BEF9

def Bitcoin.name (_ : Bitcoin) : String := "bitcoin"

def Bitcoin.network_type (_ : Bitcoin) : NetworkType := NetworkType.Mainnet

def Bitcoin.chain_params (_ : Bitcoin) : ChainParams :=
  { bip16_time := 1333238400
  , bip34_height := 227931
  , bip65_height := 388381
  , bip66_height := 363725
  , rule_change_activation_threshold := 1916
  , miner_confirmation_window := 2016
  , pow_limit :=
      [ 0xffffffffffffffff, 0xffffffffffffffff
      , 0xffffffffffffffff, 0x00000000ffffffff ]
  , pow_target_spacing := 10 * 60
  , pow_target_timespan := 14 * 24 * 60 * 60
  , allow_min_difficulty_blocks := false
  , no_pow_retargeting := false }

def Bitcoin.genesis_block (_ : Bitcoin) : Option (List Nat) :=
  hexDecode "000000000019d6689c085ae165831e934ff763ae46a2a6c172b3f1b60a8ce26f"

/-- `Bitcoin::new()` (src/networks.rs 27-32): a fresh boxed, type-erased
instance of the `Bitcoin` marker. -/
def Bitcoin.new : NetworkConstants :=
  let b : Bitcoin := {}
  { hrp := Bitcoin.hrp b
  , p2pk_prefix := Bitcoin.p2pk_prefix b
  , p2pkh_prefix := Bitcoin.p2pkh_prefix b
  , p2sh_prefix := Bitcoin.p2sh_prefix b
  , xpub_prefix := Bitcoin.xpub_prefix b
  , xpriv_prefix := Bitcoin.xpriv_prefix b
  , wif_prefix := Bitcoin.wif_prefix b
  , magic := Bitcoin.magic b
  , name := Bitcoin.name b
  , network_type := Bitcoin.network_type b
  , chain_params := Bitcoin.chain_params b
  , genesis_block := Bitcoin.genesis_block b }

/-- `Bitcoin::clone_boxed` (src/networks.rs 118-120): `Self::new()`. -/
def Bitcoin.clone_boxed (_ : Bitcoin) : NetworkConstants := Bitcoin.new

/-- Accessors of `impl NetworkConstants for BitcoinTestnet`
(src/networks.rs 123-196). -/
def BitcoinTestnet.hrp (_ : BitcoinTestnet) : String := "tb"

def BitcoinTestnet.p2pk_prefix (_ : BitcoinTestnet) : Nat := 111

def BitcoinTestnet.p2pkh_prefix (_ : BitcoinTestnet) : Nat := 111

def BitcoinTestnet.p2sh_prefix (_ : BitcoinTestnet) : Nat := 196

def BitcoinTestnet.xpub_prefix (_ : BitcoinTestnet) : List Nat :=
  [0x04, 0x35, 0x87, 0xCF]

def BitcoinTestnet.xpriv_prefix (_ : BitcoinTestnet) : List Nat :=
  [0x04, 0x35, 0x83, 0x94]

def BitcoinTestnet.wif_prefix (_ : BitcoinTestnet) : Nat := 239

def BitcoinTestnet.magic (_ : BitcoinTestnet) : Nat := 0x0709110B

def BitcoinTestnet.name (_ : BitcoinTestnet) : String := "bitcoin-testnet"

def BitcoinTestnet.network_type (_ : BitcoinTestnet) : NetworkType :=
  NetworkType.Testnet

def BitcoinTestnet.chain_params (_ : BitcoinTestnet) : ChainParams :=
  { bip16_time := 1333238400
  , bip34_height := 21111
  , bip65_height := 581885
  , bip66_height := 330776
  , rule_change_activation_threshold := 1512
  , miner_confirmation_window := 2016
  , pow_limit :=
      [ 0xffffffffffffffff, 0xffffffffffffffff
      , 0xffffffffffffffff, 0x00000000ffffffff ]
  , pow_target_spacing := 10 * 60
  , pow_target_timespan := 14 * 24 * 60 * 60
  , allow_min_difficulty_blocks := true
  , no_pow_retargeting := false }

def BitcoinTestnet.genesis_block (_ : BitcoinTestnet) : Option (List Nat) :=
  hexDecode "000000000933ea01ad0ee984209779baaec3ced90fa3f408719526f8d77f4943"

/-- `BitcoinTestnet::new()` (src/networks.rs 34-39). -/
def BitcoinTestnet.new : NetworkConstants :=
  let b : BitcoinTestnet := {}
  { hrp := BitcoinTestnet.hrp b
  , p2pk_prefix := BitcoinTestnet.p2pk_prefix b
  , p2pkh_prefix := BitcoinTestnet.p2pkh_prefix b
  , p2sh_prefix := BitcoinTestnet.p2sh_prefix b
  , xpub_prefix := BitcoinTestnet.xpub_prefix b
  , xpriv_prefix := BitcoinTestnet.xpriv_prefix b
  , wif_prefix := BitcoinTestnet.wif_prefix b
  , magic := BitcoinTestnet.magic b
  , name := BitcoinTestnet.name b
  , network_type := BitcoinTestnet.network_type b
  , chain_params := BitcoinTestnet.chain_params b
  , genesis_block := BitcoinTestnet.genesis_block b }

/-- `BitcoinTestnet::clone_boxed` (src/networks.rs 193-195). -/
def BitcoinTestnet.clone_boxed (_ : BitcoinTestnet) : NetworkConstants :=
  BitcoinTestnet.new

/-- Accessors of `impl NetworkConstants for BitcoinRegtest`
(src/networks.rs 198-271). -/
def BitcoinRegtest.hrp (_ : BitcoinRegtest) : String := "bcrt"

def BitcoinRegtest.p2pk_prefix (_ : BitcoinRegtest) : Nat := 111

def BitcoinRegtest.p2pkh_prefix (_ : BitcoinRegtest) : Nat := 111

def BitcoinRegtest.p2sh_prefix (_ : BitcoinRegtest) : Nat := 196

def BitcoinRegtest.xpub_prefix (_ : BitcoinRegtest) : List Nat :=
  [0x04, 0x35, 0x87, 0xCF]

def BitcoinRegtest.xpriv_prefix (_ : BitcoinRegtest) : List Nat :=
  [0x04, 0x35, 0x83, 0x94]

def BitcoinRegtest.wif_prefix (_ : BitcoinRegtest) : Nat := 239

def BitcoinRegtest.magic (_ : BitcoinRegtest) : Nat := 0xDAB5BFFA

def BitcoinRegtest.name (_ : BitcoinRegtest) : String := "bitcoin-regtest"

def BitcoinRegtest.network_type (_ : BitcoinRegtest) : NetworkType :=
  NetworkType.Regtest

def BitcoinRegtest.chain_params (_ : BitcoinRegtest) : ChainParams :=
  { bip16_time := 1333238400
  , bip34_height := 100000000
  , bip65_height := 1351
  , bip66_height := 1251
  , rule_change_activation_threshold := 108
  , miner_confirmation_window := 144
  , pow_limit :=
      [ 0xffffffffffffffff, 0xffffffffffffffff
      , 0xffffffffffffffff, 0x7fffffffffffffff ]
  , pow_target_spacing := 10 * 60
  , pow_target_timespan := 14 * 24 * 60 * 60
  , allow_min_difficulty_blocks := true
  , no_pow_retargeting := true }

def BitcoinRegtest.genesis_block (_ : BitcoinRegtest) : Option (List Nat) :=
  hexDecode "0f9188f13cb7b2c71f2a335e3a4fc328bf5beb436012afca590b1a11466e2206"

/-- `BitcoinRegtest::new()` (src/networks.rs 41-46). -/
def BitcoinRegtest.new : NetworkConstants :=
  let b : BitcoinRegtest := {}
  { hrp := BitcoinRegtest.hrp b
  , p2pk_prefix := BitcoinRegtest.p2pk_prefix b
  , p2pkh_prefix := BitcoinRegtest.p2pkh_prefix b
  , p2sh_prefix := BitcoinRegtest.p2sh_prefix b
  , xpub_prefix := BitcoinRegtest.xpub_prefix b
  , xpriv_prefix := BitcoinRegtest.xpriv_prefix b
  , wif_prefix := BitcoinRegtest.wif_prefix b
  , magic := BitcoinRegtest.magic b
  , name := BitcoinRegtest.name b
  , network_type := BitcoinRegtest.network_type b
  , chain_params := BitcoinRegtest.chain_params b
  , genesis_block := BitcoinRegtest.genesis_block b }

/-- `BitcoinRegtest::clone_boxed` (src/networks.rs 268-270). -/
def BitcoinRegtest.clone_boxed (_ : BitcoinRegtest) : NetworkConstants :=
  BitcoinRegtest.new

end networks

deriving instance DecidableEq for Except

/-! ## Helper lemmas -/

/-- `List.find?` returns the first element of the list satisfying the
predicate: there is an index `k` whose element is returned and satisfies
the predicate while every earlier index fails it. -/
theorem find_first_spec {α : Type} (p : α → Bool) (l : List α)
    (h : ∃ a, a ∈ l ∧ p a = true) :
    ∃ k : Fin l.length, l.find? p = some (l.get k) ∧ p (l.get k) = true ∧
      ∀ j : Fin l.length, (j : Nat) < (k : Nat) → p (l.get j) = false := by
  induction l with
  | nil => simp at h
  | cons a t ih =>
    cases hpa : p a with
    | true =>
      refine ⟨⟨0, Nat.succ_pos _⟩, ?_, ?_, ?_⟩
      · rw [List.find?_cons_of_pos _ hpa]; rfl
      · exact hpa
      · intro j hj; exact absurd hj (Nat.not_lt_zero _)
    | false =>
      have h' : ∃ b, b ∈ t ∧ p b = true := by
        rcases h with ⟨b, hb, hpb⟩
        cases hb with
        | head => rw [hpa] at hpb; exact Bool.noConfusion hpb
        | tail _ hb' => exact ⟨b, hb', hpb⟩
      obtain ⟨k, hfind, hpk, hmin⟩ := ih h'
      refine ⟨⟨k.val + 1, Nat.succ_lt_succ k.isLt⟩, ?_, ?_, ?_⟩
      · rw [List.find?_cons_of_neg _ (by simp [hpa]), hfind]; rfl
      · exact hpk
      · intro j hj
        match j with
        | ⟨0, _⟩ => exact hpa
        | ⟨j' + 1, hlt⟩ =>
          exact hmin ⟨j', Nat.lt_of_succ_lt_succ hlt⟩ (Nat.lt_of_succ_lt_succ hj)

/-- The generic lookup answers `UnknownNetwork` when no known network
satisfies the predicate. -/
theorem find_none_of_no_match (p : Networks → Bool)
    (h : ∀ n, n ∈ ALL_NETWORKS → p n = false) :
    Networks.find_net_with_property p = Except.error Error.UnknownNetwork := by
  unfold Networks.find_net_with_property
  have hnone : ALL_NETWORKS.find? p = none := by
    rw [List.find?_eq_none]
    intro x hx
    simp [h x hx]
  rw [hnone]

/-- The generic lookup is total: it yields a network or `UnknownNetwork`. -/
theorem find_total (p : Networks → Bool) :
    (∃ n, Networks.find_net_with_property p = Except.ok n) ∨
      Networks.find_net_with_property p = Except.error Error.UnknownNetwork := by
  cases hx : Networks.find_net_with_property p with
  | ok n => exact Or.inl ⟨n, rfl⟩
  | error e => cases e; exact Or.inr rfl

/-- A successful `from_magic` lookup only returns a network whose magic
equals the looked-up value. -/
theorem from_magic_ok_magic (m : Nat) (n : Networks)
    (h : Networks.from_magic m = Except.ok n) : Networks.magic n = m := by
  unfold Networks.from_magic Networks.find_net_with_property at h
  cases hf : ALL_NETWORKS.find? (fun x => Networks.magic x == m) with
  | none => rw [hf] at h; exact Except.noConfusion h
  | some a =>
    rw [hf] at h
    have ha := List.find?_some hf
    have hna : a = n := Except.ok.inj h
    subst hna
    exact beq_iff_eq.mp ha

/-! ## Claim theorems -/

/-- C1 (counterexample): the magic round-trip fails on the code at
`Vertcoin`: `Vertcoin` is in `ALL_NETWORKS` and its magic value looked up
with `from_magic` yields `Regtest`, not `Vertcoin`, because `Regtest`
shares the magic `0xDAB5BFFA` and comes first in the sequence. -/
theorem claim1_magic_roundtrip_cex :
    Networks.Vertcoin ∈ ALL_NETWORKS ∧
    Networks.from_magic (Networks.magic Networks.Vertcoin) =
      Except.ok Networks.Regtest ∧
    Networks.Regtest ≠ Networks.Vertcoin :=
  ⟨by decide, by decide, by decide⟩

/-- C1 (amended): for every network `n` in `ALL_NETWORKS`, the hrp and
name lookups round-trip, and the magic lookup round-trips for every
network except `Vertcoin`, whose magic collides with `Regtest`'s and so
looks up to `Regtest`. -/
theorem claim1_roundtrip_amended (n : Networks) (_h : n ∈ ALL_NETWORKS) :
    Networks.from_hrp (Networks.hrp n) = Except.ok n ∧
    Networks.from_name (Networks.name n) = Except.ok n ∧
    (n ≠ Networks.Vertcoin →
      Networks.from_magic (Networks.magic n) = Except.ok n) ∧
    Networks.from_magic (Networks.magic Networks.Vertcoin) =
      Except.ok Networks.Regtest := by
  cases n <;>
    first
      | exact ⟨by decide, by decide, fun _ => by decide, by decide⟩
      | exact ⟨by decide, by decide, fun hne => absurd rfl hne, by decide⟩

/-- C1 (witness): the amended round-trip instantiated at `Bitcoin`. -/
theorem claim1_roundtrip_amended_w :
    Networks.from_hrp (Networks.hrp Networks.Bitcoin) =
      Except.ok Networks.Bitcoin ∧
    Networks.from_name (Networks.name Networks.Bitcoin) =
      Except.ok Networks.Bitcoin ∧
    (Networks.Bitcoin ≠ Networks.Vertcoin →
      Networks.from_magic (Networks.magic Networks.Bitcoin) =
        Except.ok Networks.Bitcoin) ∧
    Networks.from_magic (Networks.magic Networks.Vertcoin) =
      Except.ok Networks.Regtest :=
  claim1_roundtrip_amended Networks.Bitcoin (by decide)

/-- C2: each lookup returns `UnknownNetwork` exactly when no network in
`ALL_NETWORKS` has the looked-up property value; in particular
`from_hrp "xyz"` and `from_magic 0xABCDEF01` do; and `UnknownNetwork` is
the only value of the error type. -/
theorem claim2_unknown_network :
    (∀ s : String, (∀ n, n ∈ ALL_NETWORKS → Networks.hrp n ≠ s) →
        Networks.from_hrp s = Except.error Error.UnknownNetwork) ∧
    (∀ m : Nat, (∀ n, n ∈ ALL_NETWORKS → Networks.magic n ≠ m) →
        Networks.from_magic m = Except.error Error.UnknownNetwork) ∧
    (∀ s : String, (∀ n, n ∈ ALL_NETWORKS → Networks.name n ≠ s) →
        Networks.from_name s = Except.error Error.UnknownNetwork) ∧
    Networks.from_hrp "xyz" = Except.error Error.UnknownNetwork ∧
    Networks.from_magic 0xABCDEF01 = Except.error Error.UnknownNetwork ∧
    (∀ e : Error, e = Error.UnknownNetwork) := by
  refine ⟨?_, ?_, ?_, by decide, by decide, ?_⟩
  · intro s hs
    apply find_none_of_no_match
    intro n hn
    simp only [beq_eq_false_iff_ne]
    exact hs n hn
  · intro m hm
    apply find_none_of_no_match
    intro n hn
    simp only [beq_eq_false_iff_ne]
    exact hm n hn
  · intro s hs
    apply find_none_of_no_match
    intro n hn
    simp only [beq_eq_false_iff_ne]
    exact hs n hn
  · intro e; cases e; rfl

/-- C3: whenever some network in `ALL_NETWORKS` satisfies the predicate,
the generic lookup returns the first element of the sequence, in declared
order, that satisfies it (so behaviour is deterministic under property
collisions); and each of `from_hrp`, `from_magic`, `from_name` is exactly
the generic lookup applied to the matching predicate. -/
theorem claim3_first_match (p : Networks → Bool)
    (h : ∃ n, n ∈ ALL_NETWORKS ∧ p n = true) :
    (∃ k : Fin ALL_NETWORKS.length,
      Networks.find_net_with_property p = Except.ok (ALL_NETWORKS.get k) ∧
      p (ALL_NETWORKS.get k) = true ∧
      ∀ j : Fin ALL_NETWORKS.length, (j : Nat) < (k : Nat) →
        p (ALL_NETWORKS.get j) = false) ∧
    (∀ s, Networks.from_hrp s =
        Networks.find_net_with_property (fun n => Networks.hrp n == s)) ∧
    (∀ m, Networks.from_magic m =
        Networks.find_net_with_property (fun n => Networks.magic n == m)) ∧
    (∀ s, Networks.from_name s =
        Networks.find_net_with_property (fun n => Networks.name n == s)) := by
  refine ⟨?_, fun _ => rfl, fun _ => rfl, fun _ => rfl⟩
  obtain ⟨k, hfind, hpk, hmin⟩ := find_first_spec p ALL_NETWORKS h
  refine ⟨k, ?_, hpk, hmin⟩
  unfold Networks.find_net_with_property
  rw [hfind]

/-- C3 (witness): the first-match property instantiated at the colliding
magic predicate, where both `Regtest` and `Vertcoin` match and the first
match in declared order wins. -/
theorem claim3_first_match_w :
    (∃ k : Fin ALL_NETWORKS.length,
      Networks.find_net_with_property (fun n => Networks.magic n == 0xDAB5BFFA) =
        Except.ok (ALL_NETWORKS.get k) ∧
      (fun n => Networks.magic n == 0xDAB5BFFA) (ALL_NETWORKS.get k) = true ∧
      ∀ j : Fin ALL_NETWORKS.length, (j : Nat) < (k : Nat) →
        (fun n => Networks.magic n == 0xDAB5BFFA) (ALL_NETWORKS.get j) = false) ∧
    (∀ s, Networks.from_hrp s =
        Networks.find_net_with_property (fun n => Networks.hrp n == s)) ∧
    (∀ m, Networks.from_magic m =
        Networks.find_net_with_property (fun n => Networks.magic n == m)) ∧
    (∀ s, Networks.from_name s =
        Networks.find_net_with_property (fun n => Networks.name n == s)) :=
  claim3_first_match (fun n => Networks.magic n == 0xDAB5BFFA)
    ⟨Networks.Regtest, by decide, by decide⟩

/-- C4: the concrete constants of the spec's scenario list hold, in the
generation each belongs to: `Networks::Bitcoin.hrp()` is `bc`,
`from_hrp "tvtc"` finds `VertcoinTestnet`, `Networks::Bitcoin.magic()` is
`0xD9B4BEF9`, the open-generation `BitcoinRegtest.name()` is
`bitcoin-regtest`, the closed-generation `Networks::Testnet.name()` is the
backward-compatibility exception `testnet` (not `bitcoin-testnet`), and
`no_pow_retargeting` is `true` for the open `BitcoinRegtest` but `false`
for `Bitcoin` in both generations. -/
theorem claim4_concrete_scenarios :
    Networks.hrp Networks.Bitcoin = "bc" ∧
    Networks.from_hrp "tvtc" = Except.ok Networks.VertcoinTestnet ∧
    Networks.magic Networks.Bitcoin = 0xD9B4BEF9 ∧
    networks.BitcoinRegtest.name {} = "bitcoin-regtest" ∧
    Networks.name Networks.Testnet = "testnet" ∧
    Networks.name Networks.Testnet ≠ "bitcoin-testnet" ∧
    (networks.BitcoinRegtest.chain_params {}).no_pow_retargeting = true ∧
    (networks.Bitcoin.chain_params {}).no_pow_retargeting = false ∧
    Option.map (fun c => ChainParams.no_pow_retargeting c)
        (Networks.chain_params Networks.Bitcoin) = some false :=
  ⟨rfl, by decide, rfl, rfl, rfl, by decide, rfl, rfl, rfl⟩

/-- C5: the closed-generation `chain_params` accessor halts fatally
(modelled as `none`) exactly on the four networks without parameter data
and returns a bundle (`isSome`) on the three Bitcoin-family networks, and
the lookup surface is total — every lookup returns a network or the
recoverable `UnknownNetwork`, never reaching the fatal halt. -/
theorem claim5_chain_params_partiality :
    Networks.chain_params Networks.Litecoin = none ∧
    Networks.chain_params Networks.LitecoinTestnet = none ∧
    Networks.chain_params Networks.Vertcoin = none ∧
    Networks.chain_params Networks.VertcoinTestnet = none ∧
    (Networks.chain_params Networks.Bitcoin).isSome = true ∧
    (Networks.chain_params Networks.Testnet).isSome = true ∧
    (Networks.chain_params Networks.Regtest).isSome = true ∧
    (∀ s : String, (∃ n, Networks.from_hrp s = Except.ok n) ∨
        Networks.from_hrp s = Except.error Error.UnknownNetwork) ∧
    (∀ m : Nat, (∃ n, Networks.from_magic m = Except.ok n) ∨
        Networks.from_magic m = Except.error Error.UnknownNetwork) ∧
    (∀ s : String, (∃ n, Networks.from_name s = Except.ok n) ∨
        Networks.from_name s = Except.error Error.UnknownNetwork) :=
  ⟨rfl, rfl, rfl, rfl, rfl, rfl, rfl,
    fun s => find_total (fun n => Networks.hrp n == s),
    fun m => find_total (fun n => Networks.magic n == m),
    fun s => find_total (fun n => Networks.name n == s)⟩

/-- C6: the serialized text form of a network is exactly its canonical
name, deserialization is exactly `from_name` with `UnknownNetwork` mapped
to an encoding error, and serialize-then-deserialize returns the original
network for every network. -/
theorem claim6_serde :
    (∀ n : Networks, Networks.serialize n = Networks.name n) ∧
    (∀ s n, Networks.from_name s = Except.ok n →
        Networks.deserialize s = Except.ok n) ∧
    (∀ s, Networks.from_name s = Except.error Error.UnknownNetwork →
        Networks.deserialize s = Except.error "Network") ∧
    (∀ n : Networks, Networks.deserialize (Networks.serialize n) =
        Except.ok n) := by
  refine ⟨fun _ => rfl, ?_, ?_, ?_⟩
  · intro s n h
    unfold Networks.deserialize
    rw [h]
  · intro s h
    unfold Networks.deserialize
    rw [h]
  · intro n; cases n <;> decide

/-- C7: `ALL_NETWORKS` contains every variant of the closed enumeration
exactly once — its length is seven, the number of distinct tags, every
network is a member, and each occurs with count one. -/
theorem claim7_exhaustive :
    ALL_NETWORKS.length = 7 ∧
    Fintype.card Networks = 7 ∧
    (∀ n : Networks, n ∈ ALL_NETWORKS) ∧
    (∀ n : Networks, ALL_NETWORKS.count n = 1) := by
  decide

/-- C8: for each open-generation marker, the type-erased duplicate
produced by `clone_boxed` is the very value `new()` builds, and every
accessor of the duplicate returns the same value the original marker's
accessor returns (hrp, the five legacy prefixes, magic, name,
network type, the consensus-parameter bundle, and the genesis digest). -/
theorem claim8_clone_boxed :
    (∀ b : networks.Bitcoin,
      networks.Bitcoin.clone_boxed b = networks.Bitcoin.new ∧
      ( networks.NetworkConstants.hrp (networks.Bitcoin.clone_boxed b) =
        networks.Bitcoin.hrp b) ∧
      ( networks.NetworkConstants.p2pk_prefix (networks.Bitcoin.clone_boxed b) =
        networks.Bitcoin.p2pk_prefix b) ∧
      ( networks.NetworkConstants.p2pkh_prefix (networks.Bitcoin.clone_boxed b) =
        networks.Bitcoin.p2pkh_prefix b) ∧
      ( networks.NetworkConstants.p2sh_prefix (networks.Bitcoin.clone_boxed b) =
        networks.Bitcoin.p2sh_prefix b) ∧
      ( networks.NetworkConstants.xpub_prefix (networks.Bitcoin.clone_boxed b) =
        networks.Bitcoin.xpub_prefix b) ∧
      ( networks.NetworkConstants.xpriv_prefix (networks.Bitcoin.clone_boxed b) =
        networks.Bitcoin.xpriv_prefix b) ∧
      ( networks.NetworkConstants.wif_prefix (networks.Bitcoin.clone_boxed b) =
        networks.Bitcoin.wif_prefix b) ∧
      ( networks.NetworkConstants.magic (networks.Bitcoin.clone_boxed b) =
        networks.Bitcoin.magic b) ∧
      ( networks.NetworkConstants.name (networks.Bitcoin.clone_boxed b) =
        networks.Bitcoin.name b) ∧
      ( networks.NetworkConstants.network_type (networks.Bitcoin.clone_boxed b) =
        networks.Bitcoin.network_type b) ∧
      ( networks.NetworkConstants.chain_params (networks.Bitcoin.clone_boxed b) =
        networks.Bitcoin.chain_params b) ∧
      ( networks.NetworkConstants.genesis_block (networks.Bitcoin.clone_boxed b) =
        networks.Bitcoin.genesis_block b)) ∧
    (∀ b : networks.BitcoinTestnet,
      networks.BitcoinTestnet.clone_boxed b = networks.BitcoinTestnet.new ∧
      ( networks.NetworkConstants.hrp (networks.BitcoinTestnet.clone_boxed b) =
        networks.BitcoinTestnet.hrp b) ∧
      ( networks.NetworkConstants.p2pk_prefix
          (networks.BitcoinTestnet.clone_boxed b) =
        networks.BitcoinTestnet.p2pk_prefix b) ∧
      ( networks.NetworkConstants.p2pkh_prefix
          (networks.BitcoinTestnet.clone_boxed b) =
        networks.BitcoinTestnet.p2pkh_prefix b) ∧
      ( networks.NetworkConstants.p2sh_prefix
          (networks.BitcoinTestnet.clone_boxed b) =
        networks.BitcoinTestnet.p2sh_prefix b) ∧
      ( networks.NetworkConstants.xpub_prefix
          (networks.BitcoinTestnet.clone_boxed b) =
        networks.BitcoinTestnet.xpub_prefix b) ∧
      ( networks.NetworkConstants.xpriv_prefix
          (networks.BitcoinTestnet.clone_boxed b) =
        networks.BitcoinTestnet.xpriv_prefix b) ∧
      ( networks.NetworkConstants.wif_prefix
          (networks.BitcoinTestnet.clone_boxed b) =
        networks.BitcoinTestnet.wif_prefix b) ∧
      ( networks.NetworkConstants.magic (networks.BitcoinTestnet.clone_boxed b) =
        networks.BitcoinTestnet.magic b) ∧
      ( networks.NetworkConstants.name (networks.BitcoinTestnet.clone_boxed b) =
        networks.BitcoinTestnet.name b) ∧
      ( networks.NetworkConstants.network_type
          (networks.BitcoinTestnet.clone_boxed b) =
        networks.BitcoinTestnet.network_type b) ∧
      ( networks.NetworkConstants.chain_params
          (networks.BitcoinTestnet.clone_boxed b) =
        networks.BitcoinTestnet.chain_params b) ∧
      ( networks.NetworkConstants.genesis_block
          (networks.BitcoinTestnet.clone_boxed b) =
        networks.BitcoinTestnet.genesis_block b)) ∧
    (∀ b : networks.BitcoinRegtest,
      networks.BitcoinRegtest.clone_boxed b = networks.BitcoinRegtest.new ∧
      ( networks.NetworkConstants.hrp (networks.BitcoinRegtest.clone_boxed b) =
        networks.BitcoinRegtest.hrp b) ∧
      ( networks.NetworkConstants.p2pk_prefix
          (networks.BitcoinRegtest.clone_boxed b) =
        networks.BitcoinRegtest.p2pk_prefix b) ∧
      ( networks.NetworkConstants.p2pkh_prefix
          (networks.BitcoinRegtest.clone_boxed b) =
        networks.BitcoinRegtest.p2pkh_prefix b) ∧
      ( networks.NetworkConstants.p2sh_prefix
          (networks.BitcoinRegtest.clone_boxed b) =
        networks.BitcoinRegtest.p2sh_prefix b) ∧
      ( networks.NetworkConstants.xpub_prefix
          (networks.BitcoinRegtest.clone_boxed b) =
        networks.BitcoinRegtest.xpub_prefix b) ∧
      ( networks.NetworkConstants.xpriv_prefix
          (networks.BitcoinRegtest.clone_boxed b) =
        networks.BitcoinRegtest.xpriv_prefix b) ∧
      ( networks.NetworkConstants.wif_prefix
          (networks.BitcoinRegtest.clone_boxed b) =
        networks.BitcoinRegtest.wif_prefix b) ∧
      ( networks.NetworkConstants.magic (networks.BitcoinRegtest.clone_boxed b) =
        networks.BitcoinRegtest.magic b) ∧
      ( networks.NetworkConstants.name (networks.BitcoinRegtest.clone_boxed b) =
        networks.BitcoinRegtest.name b) ∧
      ( networks.NetworkConstants.network_type
          (networks.BitcoinRegtest.clone_boxed b) =
        networks.BitcoinRegtest.network_type b) ∧
      ( networks.NetworkConstants.chain_params
          (networks.BitcoinRegtest.clone_boxed b) =
        networks.BitcoinRegtest.chain_params b) ∧
      ( networks.NetworkConstants.genesis_block
          (networks.BitcoinRegtest.clone_boxed b) =
        networks.BitcoinRegtest.genesis_block b)) :=
  ⟨fun _ => ⟨rfl, rfl, rfl, rfl, rfl, rfl, rfl, rfl, rfl, rfl, rfl, rfl, rfl⟩,
   fun _ => ⟨rfl, rfl, rfl, rfl, rfl, rfl, rfl, rfl, rfl, rfl, rfl, rfl, rfl⟩,
   fun _ => ⟨rfl, rfl, rfl, rfl, rfl, rfl, rfl, rfl, rfl, rfl, rfl, rfl, rfl⟩⟩

/-- C9: `Regtest` and `Vertcoin` share the magic value `0xDAB5BFFA`;
`from_magic 0xDAB5BFFA` returns `Regtest` (the first match in declared
order), and consequently no magic value at all looks up to `Vertcoin`. -/
theorem claim9_magic_collision :
    Networks.magic Networks.Regtest = 0xDAB5BFFA ∧
    Networks.magic Networks.Vertcoin = 0xDAB5BFFA ∧
    Networks.from_magic 0xDAB5BFFA = Except.ok Networks.Regtest ∧
    ¬ ∃ m : Nat, Networks.from_magic m = Except.ok Networks.Vertcoin := by
  refine ⟨rfl, rfl, by decide, ?_⟩
  rintro ⟨m, hm⟩
  have h1 : Networks.magic Networks.Vertcoin = m := from_magic_ok_magic m _ hm
  have h2 : m = 0xDAB5BFFA := h1.symm
  subst h2
  have h3 : Networks.from_magic 0xDAB5BFFA = Except.ok Networks.Regtest := by
    decide
  rw [h3] at hm
  exact Networks.noConfusion (Except.ok.inj hm)

/-- C10: for each closed-generation network with defined parameter data,
the returned bundle's `network` field is the receiver itself — and, in
general, any bundle `chain_params` returns carries its receiver in the
`network` field. -/
theorem claim10_chain_params_network :
    Option.map (fun c => ChainParams.network c)
        (Networks.chain_params Networks.Bitcoin) = some Networks.Bitcoin ∧
    Option.map (fun c => ChainParams.network c)
        (Networks.chain_params Networks.Testnet) = some Networks.Testnet ∧
    Option.map (fun c => ChainParams.network c)
        (Networks.chain_params Networks.Regtest) = some Networks.Regtest ∧
    (∀ (n : Networks) (cp : ChainParams Networks),
      Networks.chain_params n = some cp → ChainParams.network cp = n) := by
  refine ⟨rfl, rfl, rfl, ?_⟩
  intro n cp h
  cases n <;>
    first
      | exact Option.noConfusion h
      | (have hcp := Option.some.inj h; subst hcp; rfl)

end Constants
